import Mathlib

/-!
Shallow embedding of the exposins shape-based trajectory leg of the Tudat
repository (files `Tudat/Astrodynamics/ShapeBasedMethods/exposinsShaping.h`
and `exposinsShapingWorking.cpp`), together with proofs settling the
specification claims about it.

Modelling conventions:
* C++ `double` values are modelled as real numbers.  A floating-point
  computation that can produce a quiet NaN (square root of a negative
  radicand) is modelled in an `Option ℝ` (`none` = NaN); a computation that
  can additionally throw a `std::runtime_error` is modelled in `FloatRes`,
  whose `raised` constructor carries the named error condition.
* The external collaborators (Gaussian quadrature, root finder, interpolator,
  Eigen) are modelled by their interface contracts only: a quadrature
  evaluation is a weighted sum of integrand evaluations over an abstract node
  list, an exception thrown at any node propagating out and a NaN at any node
  poisoning the sum; Eigen's `.inverse()` is the unconditional
  adjugate-over-determinant inverse with no singularity check.
* The composite shape function classes (`compositeFunctionExposinsShaping.h`)
  are not part of the sources; following the specification they are modelled
  as a basis of named components, each evaluable together with its first,
  second and third derivatives, weighted by a coefficient vector (7 radial
  terms, 4 elevation terms).
-/

noncomputable section

namespace ExposinsShaping

/-- Modelled from the spec: one basis term of a composite shape function
(`compositeFunctionExposinsShaping.h` is not among the sources).  Per spec
section 4.1 every component is evaluable in closed form together with its
first, second and third derivatives. -/
structure BasisComponent where
  val : ℝ → ℝ
  der1 : ℝ → ℝ
  der2 : ℝ → ℝ
  der3 : ℝ → ℝ

/-- Modelled from the spec: a composite shape function is an ordered basis of
`n` components weighted by a coefficient vector of matching length (spec
section 3; the length match is enforced by the type). -/
structure CompositeFunction (n : ℕ) where
  components : Fin n → BasisComponent
  coefficients : Fin n → ℝ

/-- Value of the weighted sum of basis components. -/
def CompositeFunction.evaluateCompositeFunction {n : ℕ} (f : CompositeFunction n) (θ : ℝ) : ℝ :=
  ∑ i, f.coefficients i * (f.components i).val θ

/-- First derivative of the weighted sum of basis components. -/
def CompositeFunction.evaluateCompositeFunctionFirstDerivative {n : ℕ}
    (f : CompositeFunction n) (θ : ℝ) : ℝ :=
  ∑ i, f.coefficients i * (f.components i).der1 θ

/-- Second derivative of the weighted sum of basis components. -/
def CompositeFunction.evaluateCompositeFunctionSecondDerivative {n : ℕ}
    (f : CompositeFunction n) (θ : ℝ) : ℝ :=
  ∑ i, f.coefficients i * (f.components i).der2 θ

/-- Third derivative of the weighted sum of basis components. -/
def CompositeFunction.evaluateCompositeFunctionThirdDerivative {n : ℕ}
    (f : CompositeFunction n) (θ : ℝ) : ℝ :=
  ∑ i, f.coefficients i * (f.components i).der3 θ

/-- Raw (unweighted) value of one basis component, as used when assembling the
boundary-condition matrix. -/
def CompositeFunction.getComponentFunctionCurrentValue {n : ℕ}
    (f : CompositeFunction n) (i : Fin n) (θ : ℝ) : ℝ :=
  (f.components i).val θ

/-- Raw first derivative of one basis component. -/
def CompositeFunction.getComponentFunctionFirstDerivative {n : ℕ}
    (f : CompositeFunction n) (i : Fin n) (θ : ℝ) : ℝ :=
  (f.components i).der1 θ

/-- Raw second derivative of one basis component. -/
def CompositeFunction.getComponentFunctionSecondDerivative {n : ℕ}
    (f : CompositeFunction n) (i : Fin n) (θ : ℝ) : ℝ :=
  (f.components i).der2 θ

/-- Replace the coefficient vector of a composite function (spec section 4.1;
the size match demanded there is enforced by the type). -/
def CompositeFunction.resetCompositeFunctionCoefficients {n : ℕ}
    (f : CompositeFunction n) (c : Fin n → ℝ) : CompositeFunction n :=
  { f with coefficients := c }

/-- The mutable state of one `ExposinsShaping` object, restricted to the data
members that the embedded member functions read or write
(`exposinsShaping.h`, private section).  Spherical states are 6-vectors
(radius, azimuth, elevation and their derivatives), as produced by the
external Cartesian-to-spherical conversion. -/
structure State where
  initialStateSphericalCoordinates : Fin 6 → ℝ
  finalStateSphericalCoordinates : Fin 6 → ℝ
  initialStateParametrizedByAzimuthAngle : Fin 6 → ℝ
  finalStateParametrizedByAzimuthAngle : Fin 6 → ℝ
  initialAzimuthAngle : ℝ
  finalAzimuthAngle : ℝ
  travelledAzimuthAngle : ℝ
  requiredTimeOfFlight : ℝ
  centralBodyGravitationalParameter : ℝ
  initialValueFreeCoefficient : ℝ
  requiredGamma : ℝ
  radialDistanceCompositeFunction : CompositeFunction 7
  elevationAngleCompositeFunction : CompositeFunction 4
  coefficientsRadialDistanceFunction : Fin 7 → ℝ
  coefficientsElevationAngleFunction : Fin 4 → ℝ

/-- Tudat `physical_constants::ASTRONOMICAL_UNIT` in metres. -/
def astronomicalUnit : ℝ := 1.49597870691e11

/-- Tudat `physical_constants::JULIAN_YEAR` in seconds (86400 times 365.25). -/
def julianYear : ℝ := 86400 * 365.25

/-- The scalar function of the time equation
(`ExposinsShaping::computeScalarFunctionTimeEquation`,
`exposinsShapingWorking.cpp` lines 474-489): the radicand whose sign decides
dynamical feasibility. -/
def computeScalarFunctionTimeEquation (s : State) (currentAzimuthAngle : ℝ) : ℝ :=
  let radialFunctionValue :=
    s.radialDistanceCompositeFunction.evaluateCompositeFunction currentAzimuthAngle
  let firstDerivativeRadialFunction :=
    s.radialDistanceCompositeFunction.evaluateCompositeFunctionFirstDerivative currentAzimuthAngle
  let secondDerivativeRadialFunction :=
    s.radialDistanceCompositeFunction.evaluateCompositeFunctionSecondDerivative currentAzimuthAngle
  let elevationFunctionValue :=
    s.elevationAngleCompositeFunction.evaluateCompositeFunction currentAzimuthAngle
  let firstDerivativeElevationFunction :=
    s.elevationAngleCompositeFunction.evaluateCompositeFunctionFirstDerivative currentAzimuthAngle
  let secondDerivativeElevationFunction :=
    s.elevationAngleCompositeFunction.evaluateCompositeFunctionSecondDerivative currentAzimuthAngle
  (- secondDerivativeRadialFunction
    + 2 * firstDerivativeRadialFunction ^ 2 / radialFunctionValue
    + firstDerivativeRadialFunction * firstDerivativeElevationFunction
      * (secondDerivativeElevationFunction
          - Real.sin elevationFunctionValue * Real.cos elevationFunctionValue)
      / (firstDerivativeElevationFunction ^ 2 + Real.cos elevationFunctionValue ^ 2)
    + radialFunctionValue
      * (firstDerivativeElevationFunction ^ 2 + Real.cos elevationFunctionValue ^ 2))

/-- Derivative of the scalar function of the time equation with respect to the
azimuth angle (`ExposinsShaping::computeDerivativeScalarFunctionTimeEquation`,
`exposinsShapingWorking.cpp` lines 491-518). -/
def computeDerivativeScalarFunctionTimeEquation (s : State) (currentAzimuthAngle : ℝ) : ℝ :=
  let radialFunctionValue :=
    s.radialDistanceCompositeFunction.evaluateCompositeFunction currentAzimuthAngle
  let firstDerivativeRadialFunction :=
    s.radialDistanceCompositeFunction.evaluateCompositeFunctionFirstDerivative currentAzimuthAngle
  let secondDerivativeRadialFunction :=
    s.radialDistanceCompositeFunction.evaluateCompositeFunctionSecondDerivative currentAzimuthAngle
  let thirdDerivativeRadialFunction :=
    s.radialDistanceCompositeFunction.evaluateCompositeFunctionThirdDerivative currentAzimuthAngle
  let elevationFunctionValue :=
    s.elevationAngleCompositeFunction.evaluateCompositeFunction currentAzimuthAngle
  let firstDerivativeElevationFunction :=
    s.elevationAngleCompositeFunction.evaluateCompositeFunctionFirstDerivative currentAzimuthAngle
  let secondDerivativeElevationFunction :=
    s.elevationAngleCompositeFunction.evaluateCompositeFunctionSecondDerivative currentAzimuthAngle
  let thirdDerivativeElevationFunction :=
    s.elevationAngleCompositeFunction.evaluateCompositeFunctionThirdDerivative currentAzimuthAngle
  let F1 := firstDerivativeElevationFunction ^ 2 + Real.cos elevationFunctionValue ^ 2
  let F2 := secondDerivativeElevationFunction - Real.sin (2 * elevationFunctionValue) / 2
  let F3 := Real.cos (2 * elevationFunctionValue) + 2 * firstDerivativeElevationFunction ^ 2 + 1
  let F4 := 2 * secondDerivativeElevationFunction - Real.sin (2 * elevationFunctionValue)
  (F1 * firstDerivativeRadialFunction - thirdDerivativeRadialFunction
    - 2 * firstDerivativeRadialFunction ^ 3 / radialFunctionValue ^ 2
    + 4 * firstDerivativeRadialFunction * secondDerivativeRadialFunction / radialFunctionValue
    + F4 * firstDerivativeElevationFunction * radialFunctionValue
    + 2 * firstDerivativeElevationFunction * firstDerivativeRadialFunction
      * (thirdDerivativeElevationFunction
          - firstDerivativeElevationFunction * Real.cos (2 * elevationFunctionValue)) / F3
    + F2 * firstDerivativeElevationFunction * secondDerivativeRadialFunction / F1
    + F2 * firstDerivativeRadialFunction * secondDerivativeElevationFunction / F1
    - 4 * F4 * F2 * firstDerivativeElevationFunction ^ 2 * firstDerivativeRadialFunction / F3 ^ 2)

/-- The named error conditions thrown by the shaping code.
`infeasibleTrajectory` is the `std::runtime_error` raised when the trajectory
is not curved toward the central body (the scalar time-equation radicand is
negative). -/
inductive ShapingError where
  | infeasibleTrajectory
deriving DecidableEq

/-- Outcome of a `double`-valued C++ computation: a normally returned value,
a quiet NaN, or a thrown error carrying a named condition. -/
inductive FloatRes where
  | raised (e : ShapingError)
  | nan
  | val (x : ℝ)

/-- IEEE square root: NaN (modelled `none`) on a negative argument. -/
def fsqrt (x : ℝ) : Option ℝ :=
  if x < 0 then none else some (Real.sqrt x)

/-- Lift a possibly-NaN value into `FloatRes`. -/
def FloatRes.ofOption : Option ℝ → FloatRes
  | none => FloatRes.nan
  | some x => FloatRes.val x

/-- Scale a normally returned value by a constant; NaN and thrown errors are
unaffected (NaN times a constant is NaN, an exception propagates before the
multiplication happens). -/
def FloatRes.scale (c : ℝ) : FloatRes → FloatRes
  | FloatRes.val x => FloatRes.val (x * c)
  | r => r

/-- Model of the external quadrature service (spec section 6): a weighted sum
of integrand evaluations over an abstract node list.  An exception thrown at
any node propagates out of the quadrature; a NaN at any node poisons the
sum. -/
def quadratureEval (f : ℝ → FloatRes) : List (ℝ × ℝ) → FloatRes
  | [] => FloatRes.val 0
  | (x, w) :: rest =>
    match f x, quadratureEval f rest with
    | FloatRes.raised e, _ => FloatRes.raised e
    | FloatRes.nan, FloatRes.raised e => FloatRes.raised e
    | FloatRes.nan, _ => FloatRes.nan
    | FloatRes.val _, FloatRes.raised e => FloatRes.raised e
    | FloatRes.val _, FloatRes.nan => FloatRes.nan
    | FloatRes.val v, FloatRes.val srest => FloatRes.val (w * v + srest)

/-- The integrand of the time equation (the lambda `derivativeTimeFunction`
inside `ExposinsShaping::computeNormalizedTimeOfFlight`,
`exposinsShapingWorking.cpp` lines 524-539): if the scalar radicand is
negative a `runtime_error` naming the infeasible-trajectory condition is
thrown, otherwise the square root of radicand times radius squared over the
gravitational parameter is returned. -/
def derivativeTimeFunction (s : State) (currentAzimuthAngle : ℝ) : FloatRes :=
  if computeScalarFunctionTimeEquation s currentAzimuthAngle < 0 then
    FloatRes.raised ShapingError.infeasibleTrajectory
  else
    FloatRes.ofOption (fsqrt (computeScalarFunctionTimeEquation s currentAzimuthAngle *
      s.radialDistanceCompositeFunction.evaluateCompositeFunction currentAzimuthAngle ^ 2 /
      s.centralBodyGravitationalParameter))

/-- `ExposinsShaping::computeNormalizedTimeOfFlight`
(`exposinsShapingWorking.cpp` lines 520-546): quadrature of the time
integrand from the initial to the final azimuth angle; the node list of the
external Gaussian quadrature is abstract. -/
def computeNormalizedTimeOfFlight (s : State) (nodes : List (ℝ × ℝ)) : FloatRes :=
  quadratureEval (derivativeTimeFunction s) nodes

/-- `ExposinsShaping::computeCurrentTimeFromAzimuthAngle`
(`exposinsShapingWorking.cpp` lines 592-618): same integrand as the
time-of-flight computation, integrated up to the queried azimuth angle
(reflected in the abstract node list). -/
def computeCurrentTimeFromAzimuthAngle (s : State) (nodes : List (ℝ × ℝ)) : FloatRes :=
  quadratureEval (derivativeTimeFunction s) nodes

/-- `ExposinsShaping::computeTimeOfFlight` (`exposinsShaping.h` lines
111-115): the normalized time of flight rescaled by one Julian year at the
public boundary. -/
def computeTimeOfFlight (s : State) (nodes : List (ℝ × ℝ)) : FloatRes :=
  match computeNormalizedTimeOfFlight s nodes with
  | FloatRes.val t => FloatRes.val (t * julianYear)
  | e => e

/-- `ExposinsShaping::getNormalizedRequiredTimeOfFlight` (`exposinsShaping.h`
lines 184-187). -/
def getNormalizedRequiredTimeOfFlight (s : State) : ℝ :=
  s.requiredTimeOfFlight

/-- `ExposinsShaping::resetValueFreeCoefficient`, bound by
`iterateToMatchRequiredTimeOfFlight` (`exposinsShapingWorking.cpp` line 628).
Modelled from the spec: the function body is not among the sources; per spec
section 4.4 step (1) it sets the trial free coefficient member. -/
def resetValueFreeCoefficient (freeCoefficient : ℝ) (s : State) : State :=
  { s with initialValueFreeCoefficient := freeCoefficient }

/-- `ExposinsShaping::TimeOfFlightFunction::evaluate` (`exposinsShaping.h`
lines 243-249) as a state transformer: reset the free coefficient, compute
the normalized time of flight on the updated object, and return the residual
of required minus computed time of flight.  No other member function is
invoked by `evaluate`. -/
def timeOfFlightFunctionEvaluate (nodes : List (ℝ × ℝ)) (inputValue : ℝ) (s : State) :
    FloatRes × State :=
  let s1 := resetValueFreeCoefficient inputValue s
  match computeNormalizedTimeOfFlight s1 nodes with
  | FloatRes.val t => (FloatRes.val (getNormalizedRequiredTimeOfFlight s1 - t), s1)
  | e => (e, s1)

/-- `ExposinsShaping::computeInitialAlphaValue` (`exposinsShapingWorking.cpp`
lines 363-368). -/
def computeInitialAlphaValue (s : State) : ℝ :=
  - (s.initialStateParametrizedByAzimuthAngle 3 * s.initialStateParametrizedByAzimuthAngle 5
      / s.initialStateParametrizedByAzimuthAngle 0)
    / ((s.initialStateParametrizedByAzimuthAngle 5 / s.initialStateParametrizedByAzimuthAngle 0) ^ 2
      + Real.cos (s.initialStateParametrizedByAzimuthAngle 2) ^ 2)

/-- `ExposinsShaping::computeFinalAlphaValue` (`exposinsShapingWorking.cpp`
lines 370-375). -/
def computeFinalAlphaValue (s : State) : ℝ :=
  - (s.finalStateParametrizedByAzimuthAngle 3 * s.finalStateParametrizedByAzimuthAngle 5
      / s.finalStateParametrizedByAzimuthAngle 0)
    / ((s.finalStateParametrizedByAzimuthAngle 5 / s.finalStateParametrizedByAzimuthAngle 0) ^ 2
      + Real.cos (s.finalStateParametrizedByAzimuthAngle 2) ^ 2)

/-- `ExposinsShaping::computeInitialValueBoundariesConstant`
(`exposinsShapingWorking.cpp` lines 377-391). -/
def computeInitialValueBoundariesConstant (s : State) : ℝ :=
  let radialDistance := s.initialStateParametrizedByAzimuthAngle 0
  let elevationAngle := s.initialStateParametrizedByAzimuthAngle 2
  let derivativeRadialDistance := s.initialStateParametrizedByAzimuthAngle 3
  let derivativeElevationAngle :=
    s.initialStateParametrizedByAzimuthAngle 5 / s.initialStateParametrizedByAzimuthAngle 0
  let derivativeOfTimeWrtAzimuthAngle :=
    s.initialStateParametrizedByAzimuthAngle 0 * Real.cos (s.initialStateParametrizedByAzimuthAngle 2)
      / s.initialStateSphericalCoordinates 4
  (- s.centralBodyGravitationalParameter * derivativeOfTimeWrtAzimuthAngle ^ 2 / radialDistance ^ 2
    + 2 * derivativeRadialDistance ^ 2 / radialDistance
    + radialDistance * (derivativeElevationAngle ^ 2 + Real.cos elevationAngle ^ 2)
    - derivativeRadialDistance * derivativeElevationAngle
      * (Real.sin elevationAngle * Real.cos elevationAngle)
      / (derivativeElevationAngle ^ 2 + Real.cos elevationAngle ^ 2))

/-- `ExposinsShaping::computeFinalValueBoundariesConstant`
(`exposinsShapingWorking.cpp` lines 393-407). -/
def computeFinalValueBoundariesConstant (s : State) : ℝ :=
  let radialDistance := s.finalStateParametrizedByAzimuthAngle 0
  let elevationAngle := s.finalStateParametrizedByAzimuthAngle 2
  let derivativeRadialDistance := s.finalStateParametrizedByAzimuthAngle 3
  let derivativeElevationAngle :=
    s.finalStateParametrizedByAzimuthAngle 5 / s.finalStateParametrizedByAzimuthAngle 0
  let derivativeOfTimeWrtAzimuthAngle :=
    s.finalStateParametrizedByAzimuthAngle 0 * Real.cos (s.finalStateParametrizedByAzimuthAngle 2)
      / s.finalStateSphericalCoordinates 4
  (- s.centralBodyGravitationalParameter * derivativeOfTimeWrtAzimuthAngle ^ 2 / radialDistance ^ 2
    + 2 * derivativeRadialDistance ^ 2 / radialDistance
    + radialDistance * (derivativeElevationAngle ^ 2 + Real.cos elevationAngle ^ 2)
    - derivativeRadialDistance * derivativeElevationAngle
      * (Real.sin elevationAngle * Real.cos elevationAngle)
      / (derivativeElevationAngle ^ 2 + Real.cos elevationAngle ^ 2))

/-- Column-to-component index map of the radial block of the boundary matrix:
column `i` uses basis component `i` for `i` below 2 and component `i + 1`
otherwise, skipping the free-coefficient component 2
(`exposinsShapingWorking.cpp` lines 324-330). -/
def radialComponentIndex (i : Fin 6) : Fin 7 :=
  if h : (i : ℕ) < 2 then ⟨i, by omega⟩ else ⟨(i : ℕ) + 1, by have := i.isLt; omega⟩

/-- The 10 by 10 boundary-condition matrix assembled by
`ExposinsShaping::computeInverseMatrixBoundaryConditions` before inversion
(`exposinsShapingWorking.cpp` lines 320-357).  Unassigned entries stay at
their zero initialization. -/
def matrixBoundaryConditions (s : State) : Matrix (Fin 10) (Fin 10) ℝ :=
  Matrix.of fun r c =>
    if hc : (c : ℕ) < 6 then
      let index := radialComponentIndex ⟨c, hc⟩
      if (r : ℕ) = 0 then
        s.radialDistanceCompositeFunction.getComponentFunctionCurrentValue index s.initialAzimuthAngle
      else if (r : ℕ) = 1 then
        s.radialDistanceCompositeFunction.getComponentFunctionCurrentValue index s.finalAzimuthAngle
      else if (r : ℕ) = 2 then
        s.radialDistanceCompositeFunction.getComponentFunctionFirstDerivative index s.initialAzimuthAngle
      else if (r : ℕ) = 3 then
        s.radialDistanceCompositeFunction.getComponentFunctionFirstDerivative index s.finalAzimuthAngle
      else if (r : ℕ) = 4 then
        - s.initialStateSphericalCoordinates 0 ^ 2
          * s.radialDistanceCompositeFunction.getComponentFunctionSecondDerivative index s.initialAzimuthAngle
      else if (r : ℕ) = 5 then
        - s.finalStateSphericalCoordinates 0 ^ 2
          * s.radialDistanceCompositeFunction.getComponentFunctionSecondDerivative index s.finalAzimuthAngle
      else 0
    else
      let i : Fin 4 := ⟨(c : ℕ) - 6, by have := c.isLt; omega⟩
      if (r : ℕ) = 4 then
        computeInitialAlphaValue s
          * s.elevationAngleCompositeFunction.getComponentFunctionSecondDerivative i s.initialAzimuthAngle
      else if (r : ℕ) = 5 then
        computeFinalAlphaValue s
          * s.elevationAngleCompositeFunction.getComponentFunctionSecondDerivative i s.finalAzimuthAngle
      else if (r : ℕ) = 6 then
        s.elevationAngleCompositeFunction.getComponentFunctionCurrentValue i s.initialAzimuthAngle
      else if (r : ℕ) = 7 then
        s.elevationAngleCompositeFunction.getComponentFunctionCurrentValue i s.finalAzimuthAngle
      else if (r : ℕ) = 8 then
        s.elevationAngleCompositeFunction.getComponentFunctionFirstDerivative i s.initialAzimuthAngle
      else if (r : ℕ) = 9 then
        s.elevationAngleCompositeFunction.getComponentFunctionFirstDerivative i s.finalAzimuthAngle
      else 0

/-- Model of Eigen's `MatrixXd::inverse()`: the unconditional
adjugate-over-determinant inverse.  No singularity check is performed; on a
singular input the result is unusable (here the zero matrix, in Eigen a
matrix of non-finite entries). -/
def eigenInverse (m : Matrix (Fin 10) (Fin 10) ℝ) : Matrix (Fin 10) (Fin 10) ℝ :=
  m.det⁻¹ • m.adjugate

/-- `ExposinsShaping::computeInverseMatrixBoundaryConditions`
(`exposinsShapingWorking.cpp` lines 320-361): assemble the boundary matrix
and return its Eigen inverse, with no singularity check. -/
def computeInverseMatrixBoundaryConditions (s : State) : Matrix (Fin 10) (Fin 10) ℝ :=
  eigenInverse (matrixBoundaryConditions s)

/-- The boundary-value right-hand side assembled by
`ExposinsShaping::satisfyBoundaryConditions` (`exposinsShapingWorking.cpp`
lines 411-425). -/
def vectorBoundaryValues (s : State) : Fin 10 → ℝ :=
  ![1 / s.initialStateParametrizedByAzimuthAngle 0,
    1 / s.finalStateParametrizedByAzimuthAngle 0,
    - s.initialStateParametrizedByAzimuthAngle 3 / s.initialStateParametrizedByAzimuthAngle 0 ^ 2,
    - s.finalStateParametrizedByAzimuthAngle 3 / s.finalStateParametrizedByAzimuthAngle 0 ^ 2,
    computeInitialValueBoundariesConstant s
      - 2 * s.initialStateParametrizedByAzimuthAngle 3 ^ 2 / s.initialStateParametrizedByAzimuthAngle 0,
    computeFinalValueBoundariesConstant s
      - 2 * s.finalStateParametrizedByAzimuthAngle 3 ^ 2 / s.finalStateParametrizedByAzimuthAngle 0,
    s.initialStateParametrizedByAzimuthAngle 2,
    s.finalStateParametrizedByAzimuthAngle 2,
    s.initialStateParametrizedByAzimuthAngle 5 / s.initialStateParametrizedByAzimuthAngle 0,
    s.finalStateParametrizedByAzimuthAngle 5 / s.finalStateParametrizedByAzimuthAngle 0]

/-- The contribution column of the free coefficient (basis component 2 of the
radial function) before scaling by the free-coefficient value
(`exposinsShapingWorking.cpp` lines 427-441). -/
def vectorSecondComponentContributionBase (s : State) : Fin 10 → ℝ :=
  ![s.radialDistanceCompositeFunction.getComponentFunctionCurrentValue 2 s.initialAzimuthAngle,
    s.radialDistanceCompositeFunction.getComponentFunctionCurrentValue 2 s.finalAzimuthAngle,
    s.radialDistanceCompositeFunction.getComponentFunctionFirstDerivative 2 s.initialAzimuthAngle,
    s.radialDistanceCompositeFunction.getComponentFunctionFirstDerivative 2 s.finalAzimuthAngle,
    - s.initialStateParametrizedByAzimuthAngle 0 ^ 2
      * s.radialDistanceCompositeFunction.getComponentFunctionSecondDerivative 2 s.initialAzimuthAngle,
    - s.finalStateParametrizedByAzimuthAngle 0 ^ 2
      * s.radialDistanceCompositeFunction.getComponentFunctionSecondDerivative 2 s.finalAzimuthAngle,
    0, 0, 0, 0]

/-- `ExposinsShaping::satisfyBoundaryConditions` (`exposinsShapingWorking.cpp`
lines 409-470): solve the boundary system through the Eigen inverse of the
boundary matrix, write the six dependent radial coefficients around the free
coefficient slot 2, write the four elevation coefficients, and reset both
composite functions with the resulting vectors. -/
def satisfyBoundaryConditions (s : State) : State :=
  let vectorSecondComponentContribution : Fin 10 → ℝ :=
    fun i => s.initialValueFreeCoefficient * vectorSecondComponentContributionBase s i
  let inverseMatrixBoundaryConditions := computeInverseMatrixBoundaryConditions s
  let compositeFunctionCoefficients : Fin 10 → ℝ :=
    inverseMatrixBoundaryConditions.mulVec
      (fun i => vectorBoundaryValues s i - vectorSecondComponentContribution i)
  let newRadialCoefficients : Fin 7 → ℝ := fun i =>
    if h : (i : ℕ) < 2 then compositeFunctionCoefficients ⟨i, by omega⟩
    else if (i : ℕ) = 2 then s.initialValueFreeCoefficient
    else compositeFunctionCoefficients ⟨(i : ℕ) - 1, by have := i.isLt; omega⟩
  let newElevationCoefficients : Fin 4 → ℝ := fun i =>
    compositeFunctionCoefficients ⟨(i : ℕ) + 6, by have := i.isLt; omega⟩
  { s with
    coefficientsRadialDistanceFunction := newRadialCoefficients
    coefficientsElevationAngleFunction := newElevationCoefficients
    radialDistanceCompositeFunction :=
      s.radialDistanceCompositeFunction.resetCompositeFunctionCoefficients newRadialCoefficients
    elevationAngleCompositeFunction :=
      s.elevationAngleCompositeFunction.resetCompositeFunctionCoefficients newElevationCoefficients }

/-- Azimuth wrap correction applied to both spherical boundary states in the
constructor (`exposinsShapingWorking.cpp` lines 72-79): a negative azimuth is
shifted by two pi. -/
def correctAzimuth (a : ℝ) : ℝ :=
  if a < 0 then a + 2 * Real.pi else a

/-- Final azimuth angle computed by the constructor
(`exposinsShapingWorking.cpp` lines 85-92) from the raw initial and final
spherical azimuths (before wrap correction) and the requested revolution
count: the corrected final azimuth plus two pi per revolution, with one extra
turn when the corrected final azimuth lies behind the corrected initial
azimuth. -/
def finalAzimuthAngleOf (initialAzimuth finalAzimuth : ℝ) (numberOfRevolutions : ℤ) : ℝ :=
  if correctAzimuth finalAzimuth - correctAzimuth initialAzimuth < 0 then
    correctAzimuth finalAzimuth + 2 * Real.pi * ((numberOfRevolutions : ℝ) + 1)
  else
    correctAzimuth finalAzimuth + 2 * Real.pi * (numberOfRevolutions : ℝ)

/-- State parametrized by the azimuth angle (`exposinsShapingWorking.cpp`
lines 95-115): the spherical state with its velocity entries divided by the
time derivative of the azimuth angle. -/
def parametrizeByAzimuthAngle (v : Fin 6 → ℝ) : Fin 6 → ℝ :=
  let derivativeAzimuthAngle := v 4 / (v 0 * Real.cos (v 2))
  ![v 0, correctAzimuth (v 1), v 2,
    v 3 / derivativeAzimuthAngle, v 4 / derivativeAzimuthAngle, v 5 / derivativeAzimuthAngle]

/-- The `ExposinsShaping` constructor (`exposinsShapingWorking.cpp` lines
25-255), modelled as the state produced by a completed construction.  The
boundary states are taken in spherical coordinates, as produced by the
external `convertCartesianToSphericalState` on the unit-normalized Cartesian
states (azimuth in the atan2 range).  The two root-finding loops are external
(spec section 6): their net effect on the object is to leave the last trial
free-coefficient value in `initialValueFreeCoefficient` (each objective
evaluation only resets that member, see `timeOfFlightFunctionEvaluate`);
`requiredGamma` is overwritten after the loops with the hard-coded value of
line 166.  `travelledAzimuthAngle` is hard-coded at line 148 to pi over two
plus two revolutions.  The composite-function coefficients keep their
all-ones initialization of lines 118-133. -/
def constructExposinsShaping
    (initialSphericalState finalSphericalState : Fin 6 → ℝ)
    (requiredTimeOfFlight : ℝ)
    (numberOfRevolutions : ℤ)
    (centralBodyGravitationalParameter : ℝ)
    (initialValueFreeCoefficient : ℝ)
    (radialBasisComponents : Fin 7 → BasisComponent)
    (elevationBasisComponents : Fin 4 → BasisComponent)
    (lastFreeCoefficientTrial lastGammaTrial : ℝ) : State :=
  let correctedInitial : Fin 6 → ℝ := fun i =>
    if (i : ℕ) = 1 then correctAzimuth (initialSphericalState 1) else initialSphericalState i
  let correctedFinal : Fin 6 → ℝ := fun i =>
    if (i : ℕ) = 1 then correctAzimuth (finalSphericalState 1) else finalSphericalState i
  { initialStateSphericalCoordinates := correctedInitial
    finalStateSphericalCoordinates := correctedFinal
    initialStateParametrizedByAzimuthAngle := parametrizeByAzimuthAngle initialSphericalState
    finalStateParametrizedByAzimuthAngle := parametrizeByAzimuthAngle finalSphericalState
    initialAzimuthAngle := correctAzimuth (initialSphericalState 1)
    finalAzimuthAngle :=
      finalAzimuthAngleOf (initialSphericalState 1) (finalSphericalState 1) numberOfRevolutions
    travelledAzimuthAngle := Real.pi / 2 + 2 * Real.pi * 2
    requiredTimeOfFlight := requiredTimeOfFlight / julianYear
    centralBodyGravitationalParameter :=
      centralBodyGravitationalParameter * julianYear ^ 2 / astronomicalUnit ^ 3
    initialValueFreeCoefficient := lastFreeCoefficientTrial
    requiredGamma := -25 * Real.pi / 180
    radialDistanceCompositeFunction := ⟨radialBasisComponents, fun _ => 1⟩
    elevationAngleCompositeFunction := ⟨elevationBasisComponents, fun _ => 1⟩
    coefficientsRadialDistanceFunction := fun _ => 1
    coefficientsElevationAngleFunction := fun _ => 1 }

/-- `ExposinsShaping::getTravelledAzimuthAngle` (`exposinsShaping.h` lines
96-100). -/
def getTravelledAzimuthAngle (s : State) : ℝ :=
  s.travelledAzimuthAngle

/-- `ExposinsShaping::getInitialAzimuthAngle` (`exposinsShaping.h` lines
78-82). -/
def getInitialAzimuthAngle (s : State) : ℝ :=
  s.initialAzimuthAngle

/-- `ExposinsShaping::getFinalAzimuthAngle` (`exposinsShaping.h` lines
84-88). -/
def getFinalAzimuthAngle (s : State) : ℝ :=
  s.finalAzimuthAngle

/-- Model of Eigen's resize on a fixed-size vector member: resizing is a
no-op when the requested size equals the declared compile-time size and an
assertion failure (no resulting vector) otherwise. -/
def eigenFixedVecResize (declaredSize : ℕ) (v : Fin declaredSize → ℝ) (newSize : ℕ) :
    Option (Fin newSize → ℝ) :=
  if h : newSize = declaredSize then some (fun i => v (Fin.cast h i)) else none

/-- The constructor's initialization of the radial coefficient member
(`exposinsShapingWorking.cpp` lines 119-123, resize to 7 then fill with
ones) applied to the member as declared in the header, the fixed-size
`Eigen::Vector4d` of `exposinsShaping.h` line 379. -/
def constructorRadialCoefficientsInit (declaredMember : Fin 4 → ℝ) : Option (Fin 7 → ℝ) :=
  (eigenFixedVecResize 4 declaredMember 7).map fun _ => fun _ => (1 : ℝ)

/-- `ExposinsShaping::computeFirstDerivativeAzimuthAngleWrtTime`
(`exposinsShapingWorking.cpp` lines 680-690): square root of the
gravitational parameter over radicand times radius squared; NaN when the
radicand is negative. -/
def computeFirstDerivativeAzimuthAngleWrtTime (s : State) (currentAzimuthAngle : ℝ) : Option ℝ :=
  fsqrt (s.centralBodyGravitationalParameter /
    (computeScalarFunctionTimeEquation s currentAzimuthAngle *
      s.radialDistanceCompositeFunction.evaluateCompositeFunction currentAzimuthAngle ^ 2))

/-- `ExposinsShaping::computeSecondDerivativeAzimuthAngleWrtTime`
(`exposinsShapingWorking.cpp` lines 693-708). -/
def computeSecondDerivativeAzimuthAngleWrtTime (s : State) (currentAzimuthAngle : ℝ) : Option ℝ :=
  (computeFirstDerivativeAzimuthAngleWrtTime s currentAzimuthAngle).map fun d1 =>
    - d1 ^ 2 *
      (computeDerivativeScalarFunctionTimeEquation s currentAzimuthAngle
          / (2 * computeScalarFunctionTimeEquation s currentAzimuthAngle)
        + s.radialDistanceCompositeFunction.evaluateCompositeFunctionFirstDerivative currentAzimuthAngle
          / s.radialDistanceCompositeFunction.evaluateCompositeFunction currentAzimuthAngle)

/-- `ExposinsShaping::computePositionVectorInSphericalCoordinates`
(`exposinsShapingWorking.cpp` lines 669-677). -/
def computePositionVectorInSphericalCoordinates (s : State) (currentAzimuthAngle : ℝ) :
    Fin 3 → ℝ :=
  ![s.radialDistanceCompositeFunction.evaluateCompositeFunction currentAzimuthAngle,
    currentAzimuthAngle,
    s.elevationAngleCompositeFunction.evaluateCompositeFunction currentAzimuthAngle]

/-- `ExposinsShaping::computeCurrentVelocityParametrizedByAzimuthAngle`
(`exposinsShapingWorking.cpp` lines 753-766). -/
def computeCurrentVelocityParametrizedByAzimuthAngle (s : State) (currentAzimuthAngle : ℝ) :
    Fin 3 → ℝ :=
  let radialDistance :=
    s.radialDistanceCompositeFunction.evaluateCompositeFunction currentAzimuthAngle
  let derivativeRadialDistance :=
    s.radialDistanceCompositeFunction.evaluateCompositeFunctionFirstDerivative currentAzimuthAngle
  let elevationAngle :=
    s.elevationAngleCompositeFunction.evaluateCompositeFunction currentAzimuthAngle
  let derivativeElevationAngle :=
    s.elevationAngleCompositeFunction.evaluateCompositeFunctionFirstDerivative currentAzimuthAngle
  ![derivativeRadialDistance,
    radialDistance * Real.cos elevationAngle,
    radialDistance * derivativeElevationAngle]

/-- `ExposinsShaping::computeVelocityVectorInSphericalCoordinates`
(`exposinsShapingWorking.cpp` lines 712-719). -/
def computeVelocityVectorInSphericalCoordinates (s : State) (currentAzimuthAngle : ℝ) :
    Option (Fin 3 → ℝ) :=
  (computeFirstDerivativeAzimuthAngleWrtTime s currentAzimuthAngle).map fun d =>
    fun i => d * computeCurrentVelocityParametrizedByAzimuthAngle s currentAzimuthAngle i

/-- `ExposinsShaping::computeStateVectorInSphericalCoordinates`
(`exposinsShapingWorking.cpp` lines 723-730). -/
def computeStateVectorInSphericalCoordinates (s : State) (currentAzimuthAngle : ℝ) :
    Option (Fin 6 → ℝ) :=
  (computeVelocityVectorInSphericalCoordinates s currentAzimuthAngle).map fun v =>
    ![computePositionVectorInSphericalCoordinates s currentAzimuthAngle 0,
      computePositionVectorInSphericalCoordinates s currentAzimuthAngle 1,
      computePositionVectorInSphericalCoordinates s currentAzimuthAngle 2,
      v 0, v 1, v 2]

/-- Modelled from the spec:
`coordinate_conversions::convertSphericalToCartesianState` is not among the
sources (spec section 2 item 1: pure Cartesian and spherical state
conversion).  Standard orthonormal spherical-frame formulas: the spherical
state is (radius, azimuth, elevation, radial rate, azimuthal rate, elevation
rate), the Cartesian velocity the image of the rate triple under the local
orthonormal frame. -/
def convertSphericalToCartesianState (v : Fin 6 → ℝ) : Fin 6 → ℝ :=
  let r := v 0
  let az := v 1
  let el := v 2
  ![r * Real.cos el * Real.cos az,
    r * Real.cos el * Real.sin az,
    r * Real.sin el,
    v 3 * Real.cos el * Real.cos az - v 4 * Real.sin az - v 5 * Real.sin el * Real.cos az,
    v 3 * Real.cos el * Real.sin az + v 4 * Real.cos az - v 5 * Real.sin el * Real.sin az,
    v 3 * Real.sin el + v 5 * Real.cos el]

/-- `ExposinsShaping::computeNormalizedStateVector`
(`exposinsShapingWorking.cpp` lines 733-736). -/
def computeNormalizedStateVector (s : State) (currentAzimuthAngle : ℝ) : Option (Fin 6 → ℝ) :=
  (computeStateVectorInSphericalCoordinates s currentAzimuthAngle).map
    convertSphericalToCartesianState

/-- `ExposinsShaping::computeCurrentStateVector` (`exposinsShapingWorking.cpp`
lines 740-749): the normalized state rescaled at the public boundary,
position by the astronomical unit and velocity by astronomical unit per
Julian year (the source calls `computeNormalizedStateVector` once per
segment). -/
def computeCurrentStateVector (s : State) (currentAzimuthAngle : ℝ) : Option (Fin 6 → ℝ) :=
  do
  let positionPart ← computeNormalizedStateVector s currentAzimuthAngle
  let velocityPart ← computeNormalizedStateVector s currentAzimuthAngle
  pure fun i =>
    if (i : ℕ) < 3 then positionPart i * astronomicalUnit
    else velocityPart i * astronomicalUnit / julianYear

/-- `ExposinsShaping::computeCurrentAccelerationParametrizedByAzimuthAngle`
(`exposinsShapingWorking.cpp` lines 770-791). -/
def computeCurrentAccelerationParametrizedByAzimuthAngle (s : State)
    (currentAzimuthAngle : ℝ) : Fin 3 → ℝ :=
  let radialDistance :=
    s.radialDistanceCompositeFunction.evaluateCompositeFunction currentAzimuthAngle
  let firstDerivativeRadialDistance :=
    s.radialDistanceCompositeFunction.evaluateCompositeFunctionFirstDerivative currentAzimuthAngle
  let secondDerivativeRadialDistance :=
    s.radialDistanceCompositeFunction.evaluateCompositeFunctionSecondDerivative currentAzimuthAngle
  let elevationAngle :=
    s.elevationAngleCompositeFunction.evaluateCompositeFunction currentAzimuthAngle
  let firstDerivativeElevationAngle :=
    s.elevationAngleCompositeFunction.evaluateCompositeFunctionFirstDerivative currentAzimuthAngle
  let secondDerivativeElevationAngle :=
    s.elevationAngleCompositeFunction.evaluateCompositeFunctionSecondDerivative currentAzimuthAngle
  ![secondDerivativeRadialDistance
      - radialDistance * (firstDerivativeElevationAngle ^ 2 + Real.cos elevationAngle ^ 2),
    2 * firstDerivativeRadialDistance * Real.cos elevationAngle
      - 2 * radialDistance * firstDerivativeElevationAngle * Real.sin elevationAngle,
    2 * firstDerivativeRadialDistance * firstDerivativeElevationAngle
      + radialDistance
        * (secondDerivativeElevationAngle + Real.sin elevationAngle * Real.cos elevationAngle)]

/-- `ExposinsShaping::computeThrustAccelerationInSphericalCoordinates`
(`exposinsShapingWorking.cpp` lines 794-815): kinematic acceleration from the
azimuth-parametrized quantities plus the central-body gravity term. -/
def computeThrustAccelerationInSphericalCoordinates (s : State) (currentAzimuthAngle : ℝ) :
    Option (Fin 3 → ℝ) :=
  do
  let firstDerivativeAzimuthAngleWrtTime ←
    computeFirstDerivativeAzimuthAngleWrtTime s currentAzimuthAngle
  let secondDerivativeAzimuthAngleWrtTime ←
    computeSecondDerivativeAzimuthAngleWrtTime s currentAzimuthAngle
  let radialDistance :=
    s.radialDistanceCompositeFunction.evaluateCompositeFunction currentAzimuthAngle
  pure fun i =>
    firstDerivativeAzimuthAngleWrtTime ^ 2
        * computeCurrentAccelerationParametrizedByAzimuthAngle s currentAzimuthAngle i
      + secondDerivativeAzimuthAngleWrtTime
        * computeCurrentVelocityParametrizedByAzimuthAngle s currentAzimuthAngle i
      + s.centralBodyGravitationalParameter / radialDistance ^ 3 * (![radialDistance, 0, 0] i)

/-- `ExposinsShaping::computeNormalizedThrustAccelerationVector`
(`exposinsShapingWorking.cpp` lines 818-829): the spherical thrust
acceleration carried through the spherical-to-Cartesian conversion alongside
the position. -/
def computeNormalizedThrustAccelerationVector (s : State) (currentAzimuthAngle : ℝ) :
    Option (Fin 3 → ℝ) :=
  (computeThrustAccelerationInSphericalCoordinates s currentAzimuthAngle).map fun t =>
    let cart := convertSphericalToCartesianState
      ![computePositionVectorInSphericalCoordinates s currentAzimuthAngle 0,
        computePositionVectorInSphericalCoordinates s currentAzimuthAngle 1,
        computePositionVectorInSphericalCoordinates s currentAzimuthAngle 2,
        t 0, t 1, t 2]
    ![cart 3, cart 4, cart 5]

/-- `ExposinsShaping::computeCurrentThrustAccelerationVector`
(`exposinsShaping.h` lines 122-127): the normalized thrust acceleration
rescaled by astronomical unit per Julian year squared. -/
def computeCurrentThrustAccelerationVector (s : State) (currentAzimuthAngle : ℝ) :
    Option (Fin 3 → ℝ) :=
  (computeNormalizedThrustAccelerationVector s currentAzimuthAngle).map fun a =>
    fun i => a i * astronomicalUnit / julianYear ^ 2

/-- Euclidean norm of a 3-vector (Eigen `.norm()`). -/
def norm3 (v : Fin 3 → ℝ) : ℝ :=
  Real.sqrt (v 0 ^ 2 + v 1 ^ 2 + v 2 ^ 2)

/-- The integrand of the deltaV computation (the lambda
`derivativeFunctionDeltaV` inside `ExposinsShaping::computeDeltaV`,
`exposinsShapingWorking.cpp` lines 942-951): the norm of the spherical thrust
acceleration times the square root of radicand times radius squared over the
gravitational parameter.  No feasibility check is performed; a negative
radicand reaches the square roots and produces NaN. -/
def derivativeFunctionDeltaV (s : State) (currentAzimuthAngle : ℝ) : Option ℝ :=
  do
  let thrustAcceleration ← computeThrustAccelerationInSphericalCoordinates s currentAzimuthAngle
  let timeFactor ← fsqrt (computeScalarFunctionTimeEquation s currentAzimuthAngle *
    s.radialDistanceCompositeFunction.evaluateCompositeFunction currentAzimuthAngle ^ 2 /
    s.centralBodyGravitationalParameter)
  pure (norm3 thrustAcceleration * timeFactor)

/-- `ExposinsShaping::computeDeltaV` (`exposinsShapingWorking.cpp` lines
939-959): quadrature of the deltaV integrand, rescaled by astronomical unit
per Julian year at the public boundary. -/
def computeDeltaV (s : State) (nodes : List (ℝ × ℝ)) : FloatRes :=
  match quadratureEval (fun θ => FloatRes.ofOption (derivativeFunctionDeltaV s θ)) nodes with
  | FloatRes.val x => FloatRes.val (x * astronomicalUnit / julianYear)
  | e => e

/-- The member-call form of `computeCurrentStateVector`: the body of the C++
member function performs no assignment to any data member, so the call
returns the queried value and leaves the object unchanged. -/
def computeCurrentStateVectorCall (s : State) (currentAzimuthAngle : ℝ) :
    Option (Fin 6 → ℝ) × State :=
  (computeCurrentStateVector s currentAzimuthAngle, s)

/-- The member-call form of `computeDeltaV`: the body of the C++ member
function performs no assignment to any data member, so the call returns the
queried value and leaves the object unchanged. -/
def computeDeltaVCall (s : State) (nodes : List (ℝ × ℝ)) : FloatRes × State :=
  (computeDeltaV s nodes, s)

/-- A basis component whose value and derivatives are constants. -/
def constComponent (a b c d : ℝ) : BasisComponent :=
  ⟨fun _ => a, fun _ => b, fun _ => c, fun _ => d⟩

/-- Radial basis for the concrete test state: one component of value 1 with
second derivative 10, the others identically zero. -/
def testRadialComponents : Fin 7 → BasisComponent :=
  fun i => if i = 0 then constComponent 1 0 10 0 else constComponent 0 0 0 0

/-- Elevation basis for the concrete test state: all components identically
zero. -/
def testElevationComponents : Fin 4 → BasisComponent :=
  fun _ => constComponent 0 0 0 0

/-- A concrete shaping state on which the scalar time-equation radicand is
negative everywhere (radius 1, second radial derivative 10, flat elevation):
the radicand evaluates to minus nine.  Both boundary azimuth angles coincide
at zero, so its boundary-condition matrix has two equal rows. -/
def infeasibleState : State where
  initialStateSphericalCoordinates := fun _ => 1
  finalStateSphericalCoordinates := fun _ => 1
  initialStateParametrizedByAzimuthAngle := fun _ => 1
  finalStateParametrizedByAzimuthAngle := fun _ => 1
  initialAzimuthAngle := 0
  finalAzimuthAngle := 0
  travelledAzimuthAngle := 0
  requiredTimeOfFlight := 5
  centralBodyGravitationalParameter := 1
  initialValueFreeCoefficient := 1
  requiredGamma := 0
  radialDistanceCompositeFunction := ⟨testRadialComponents, fun _ => 1⟩
  elevationAngleCompositeFunction := ⟨testElevationComponents, fun _ => 1⟩
  coefficientsRadialDistanceFunction := fun _ => 1
  coefficientsElevationAngleFunction := fun _ => 1

lemma testRadial_eval (θ : ℝ) :
    infeasibleState.radialDistanceCompositeFunction.evaluateCompositeFunction θ = 1 := by
  simp [infeasibleState, CompositeFunction.evaluateCompositeFunction, testRadialComponents,
    constComponent, Fin.sum_univ_seven]

lemma testRadial_der1 (θ : ℝ) :
    infeasibleState.radialDistanceCompositeFunction.evaluateCompositeFunctionFirstDerivative θ
      = 0 := by
  simp [infeasibleState, CompositeFunction.evaluateCompositeFunctionFirstDerivative,
    testRadialComponents, constComponent, Fin.sum_univ_seven]

lemma testRadial_der2 (θ : ℝ) :
    infeasibleState.radialDistanceCompositeFunction.evaluateCompositeFunctionSecondDerivative θ
      = 10 := by
  simp [infeasibleState, CompositeFunction.evaluateCompositeFunctionSecondDerivative,
    testRadialComponents, constComponent, Fin.sum_univ_seven]

lemma testElevation_eval (θ : ℝ) :
    infeasibleState.elevationAngleCompositeFunction.evaluateCompositeFunction θ = 0 := by
  simp [infeasibleState, CompositeFunction.evaluateCompositeFunction, testElevationComponents,
    constComponent, Fin.sum_univ_four]

lemma testElevation_der1 (θ : ℝ) :
    infeasibleState.elevationAngleCompositeFunction.evaluateCompositeFunctionFirstDerivative θ
      = 0 := by
  simp [infeasibleState, CompositeFunction.evaluateCompositeFunctionFirstDerivative,
    testElevationComponents, constComponent, Fin.sum_univ_four]

lemma testElevation_der2 (θ : ℝ) :
    infeasibleState.elevationAngleCompositeFunction.evaluateCompositeFunctionSecondDerivative θ
      = 0 := by
  simp [infeasibleState, CompositeFunction.evaluateCompositeFunctionSecondDerivative,
    testElevationComponents, constComponent, Fin.sum_univ_four]

lemma infeasibleState_scalar (θ : ℝ) :
    computeScalarFunctionTimeEquation infeasibleState θ = -9 := by
  rw [computeScalarFunctionTimeEquation]
  rw [testRadial_eval, testRadial_der1, testRadial_der2, testElevation_eval,
    testElevation_der1, testElevation_der2]
  norm_num

lemma quadratureEval_raised {f : ℝ → FloatRes} :
    ∀ {nodes : List (ℝ × ℝ)} {x w : ℝ}, (x, w) ∈ nodes →
      f x = FloatRes.raised ShapingError.infeasibleTrajectory →
      quadratureEval f nodes = FloatRes.raised ShapingError.infeasibleTrajectory := by
  intro nodes
  induction nodes with
  | nil =>
    intro x w hmem _
    exact absurd hmem (List.not_mem_nil _)
  | cons head rest ih =>
    intro x w hmem hx
    obtain ⟨a, b⟩ := head
    rcases List.mem_cons.mp hmem with heq | htail
    · obtain ⟨rfl, rfl⟩ := Prod.mk.injEq .. ▸ heq
      simp [quadratureEval, hx]
    · have hrest := ih htail hx
      cases hfa : f a with
      | raised e =>
        cases e
        simp [quadratureEval, hfa]
      | nan => simp [quadratureEval, hfa, hrest]
      | val v => simp [quadratureEval, hfa, hrest]

lemma quadratureEval_ne_raised {f : ℝ → FloatRes}
    (hnr : ∀ θ e, f θ ≠ FloatRes.raised e) :
    ∀ (nodes : List (ℝ × ℝ)) (e : ShapingError),
      quadratureEval f nodes ≠ FloatRes.raised e := by
  intro nodes
  induction nodes with
  | nil =>
    intro e
    simp [quadratureEval]
  | cons head rest ih =>
    intro e
    obtain ⟨a, b⟩ := head
    cases hfa : f a with
    | raised e2 => exact absurd hfa (hnr a e2)
    | nan =>
      cases hq : quadratureEval f rest with
      | raised e2 => exact absurd hq (ih e2)
      | nan => simp [quadratureEval, hfa, hq]
      | val v => simp [quadratureEval, hfa, hq]
    | val v =>
      cases hq : quadratureEval f rest with
      | raised e2 => exact absurd hq (ih e2)
      | nan => simp [quadratureEval, hfa, hq]
      | val v2 => simp [quadratureEval, hfa, hq]

lemma quadratureEval_nan {f : ℝ → FloatRes}
    (hnr : ∀ θ e, f θ ≠ FloatRes.raised e) :
    ∀ {nodes : List (ℝ × ℝ)} {x w : ℝ}, (x, w) ∈ nodes → f x = FloatRes.nan →
      quadratureEval f nodes = FloatRes.nan := by
  intro nodes
  induction nodes with
  | nil =>
    intro x w hmem _
    exact absurd hmem (List.not_mem_nil _)
  | cons head rest ih =>
    intro x w hmem hx
    obtain ⟨a, b⟩ := head
    rcases List.mem_cons.mp hmem with heq | htail
    · obtain ⟨rfl, rfl⟩ := Prod.mk.injEq .. ▸ heq
      cases hq : quadratureEval f rest with
      | raised e2 => exact absurd hq (quadratureEval_ne_raised hnr rest e2)
      | nan => simp [quadratureEval, hx, hq]
      | val v => simp [quadratureEval, hx, hq]
    · have hrest := ih htail hx
      cases hfa : f a with
      | raised e2 => exact absurd hfa (hnr a e2)
      | nan => simp [quadratureEval, hfa, hrest]
      | val v => simp [quadratureEval, hfa, hrest]

lemma timeQuadrature_raised_of_infeasible (s : State) {nodes : List (ℝ × ℝ)} {x w : ℝ}
    (hmem : (x, w) ∈ nodes) (hneg : computeScalarFunctionTimeEquation s x < 0) :
    quadratureEval (derivativeTimeFunction s) nodes
      = FloatRes.raised ShapingError.infeasibleTrajectory := by
  apply quadratureEval_raised hmem
  simp [derivativeTimeFunction, hneg]

lemma firstDerivativeAzimuthAngle_nan_of_infeasible (s : State) {x : ℝ}
    (hneg : computeScalarFunctionTimeEquation s x < 0)
    (hmu : 0 < s.centralBodyGravitationalParameter)
    (hrad : s.radialDistanceCompositeFunction.evaluateCompositeFunction x ≠ 0) :
    computeFirstDerivativeAzimuthAngleWrtTime s x = none := by
  have hr2 : 0 < s.radialDistanceCompositeFunction.evaluateCompositeFunction x ^ 2 :=
    (sq_nonneg _).lt_of_ne (Ne.symm (pow_ne_zero 2 hrad))
  have hprod : computeScalarFunctionTimeEquation s x *
      s.radialDistanceCompositeFunction.evaluateCompositeFunction x ^ 2 < 0 :=
    mul_neg_of_neg_of_pos hneg hr2
  have hdivneg : s.centralBodyGravitationalParameter /
      (computeScalarFunctionTimeEquation s x *
        s.radialDistanceCompositeFunction.evaluateCompositeFunction x ^ 2) < 0 :=
    div_neg_of_pos_of_neg hmu hprod
  simp [computeFirstDerivativeAzimuthAngleWrtTime, fsqrt, hdivneg]

lemma computeDeltaV_nan_of_infeasible (s : State) {nodes : List (ℝ × ℝ)} {x w : ℝ}
    (hmem : (x, w) ∈ nodes) (hneg : computeScalarFunctionTimeEquation s x < 0)
    (hmu : 0 < s.centralBodyGravitationalParameter)
    (hrad : s.radialDistanceCompositeFunction.evaluateCompositeFunction x ≠ 0) :
    computeDeltaV s nodes = FloatRes.nan := by
  have hthrust : computeThrustAccelerationInSphericalCoordinates s x = none := by
    simp [computeThrustAccelerationInSphericalCoordinates,
      firstDerivativeAzimuthAngle_nan_of_infeasible s hneg hmu hrad]
  have hdv : derivativeFunctionDeltaV s x = none := by
    simp [derivativeFunctionDeltaV, hthrust]
  have hnr : ∀ θ e,
      FloatRes.ofOption (derivativeFunctionDeltaV s θ) ≠ FloatRes.raised e := by
    intro θ e
    cases h : derivativeFunctionDeltaV s θ <;> simp [FloatRes.ofOption, h]
  have hquad : quadratureEval (fun θ => FloatRes.ofOption (derivativeFunctionDeltaV s θ)) nodes
      = FloatRes.nan := by
    apply quadratureEval_nan hnr hmem
    simp [hdv, FloatRes.ofOption]
  simp [computeDeltaV, hquad]

/-- C1, amended: for every azimuth angle at which the scalar time-equation
radicand is negative (the gravitational parameter being positive and the
radial function nonzero there), the time queries
`computeNormalizedTimeOfFlight` and `computeCurrentTimeFromAzimuthAngle`
raise the named infeasible-trajectory condition whenever the quadrature
evaluates the integrand at that angle; `computeDeltaV`, whose integrand
performs no feasibility check, returns NaN instead of raising. -/
theorem claim1_amended (s : State) (nodes : List (ℝ × ℝ)) (x w : ℝ)
    (hmem : (x, w) ∈ nodes)
    (hneg : computeScalarFunctionTimeEquation s x < 0)
    (hmu : 0 < s.centralBodyGravitationalParameter)
    (hrad : s.radialDistanceCompositeFunction.evaluateCompositeFunction x ≠ 0) :
    computeNormalizedTimeOfFlight s nodes = FloatRes.raised ShapingError.infeasibleTrajectory
    ∧ computeCurrentTimeFromAzimuthAngle s nodes
        = FloatRes.raised ShapingError.infeasibleTrajectory
    ∧ computeDeltaV s nodes = FloatRes.nan :=
  ⟨timeQuadrature_raised_of_infeasible s hmem hneg,
   timeQuadrature_raised_of_infeasible s hmem hneg,
   computeDeltaV_nan_of_infeasible s hmem hneg hmu hrad⟩

/-- C1 witness: a concrete state and node where the radicand is negative,
with the three query outcomes obtained from the amended theorem. -/
theorem claim1_witness :
    ((0 : ℝ), (1 : ℝ)) ∈ [((0 : ℝ), (1 : ℝ))]
    ∧ computeScalarFunctionTimeEquation infeasibleState 0 < 0
    ∧ 0 < infeasibleState.centralBodyGravitationalParameter
    ∧ infeasibleState.radialDistanceCompositeFunction.evaluateCompositeFunction 0 ≠ 0
    ∧ (computeNormalizedTimeOfFlight infeasibleState [(0, 1)]
          = FloatRes.raised ShapingError.infeasibleTrajectory
      ∧ computeCurrentTimeFromAzimuthAngle infeasibleState [(0, 1)]
          = FloatRes.raised ShapingError.infeasibleTrajectory
      ∧ computeDeltaV infeasibleState [(0, 1)] = FloatRes.nan) :=
  ⟨List.mem_singleton.mpr rfl,
   by rw [infeasibleState_scalar]; norm_num,
   by norm_num [infeasibleState],
   by rw [testRadial_eval]; norm_num,
   claim1_amended infeasibleState [(0, 1)] 0 1 (List.mem_singleton.mpr rfl)
     (by rw [infeasibleState_scalar]; norm_num)
     (by norm_num [infeasibleState])
     (by rw [testRadial_eval]; norm_num)⟩

/-- C1 counterexample: at a concrete state whose radicand is negative at the
quadrature node, the quadrature-evaluated query `computeDeltaV` returns NaN
rather than raising the infeasible-trajectory condition, refuting the claim
that every quadrature-evaluated query raises it and never returns NaN. -/
theorem claim1_counterexample :
    computeScalarFunctionTimeEquation infeasibleState 0 < 0
    ∧ computeDeltaV infeasibleState [(0, 1)] = FloatRes.nan
    ∧ ∀ e, computeDeltaV infeasibleState [(0, 1)] ≠ FloatRes.raised e := by
  have hneg : computeScalarFunctionTimeEquation infeasibleState 0 < 0 := by
    rw [infeasibleState_scalar]; norm_num
  have hnan := computeDeltaV_nan_of_infeasible infeasibleState
    (show ((0 : ℝ), (1 : ℝ)) ∈ [((0 : ℝ), (1 : ℝ))] from List.mem_singleton.mpr rfl) hneg
    (by norm_num [infeasibleState])
    (by rw [testRadial_eval]; norm_num)
  refine ⟨hneg, hnan, ?_⟩
  intro e
  rw [hnan]
  intro h
  exact FloatRes.noConfusion h

lemma eigenInverse_eq_inv (m : Matrix (Fin 10) (Fin 10) ℝ) : eigenInverse m = m⁻¹ := by
  rw [eigenInverse, Matrix.inv_def, Ring.inverse_eq_inv']

/-- The boundary-value solution formula of the spec (section 4.2): the matrix
inverse applied to the boundary-values vector minus the free coefficient
times its contribution column. -/
def boundaryConditionsSolution (s : State) : Fin 10 → ℝ :=
  Matrix.mulVec (matrixBoundaryConditions s)⁻¹
    (vectorBoundaryValues s
      - s.initialValueFreeCoefficient • vectorSecondComponentContributionBase s)

lemma satisfyBC_solution (s : State) :
    Matrix.mulVec (computeInverseMatrixBoundaryConditions s)
      (fun i => vectorBoundaryValues s i
        - s.initialValueFreeCoefficient * vectorSecondComponentContributionBase s i)
      = boundaryConditionsSolution s := by
  rw [computeInverseMatrixBoundaryConditions, eigenInverse_eq_inv, boundaryConditionsSolution]
  have hvec : (fun i => vectorBoundaryValues s i
      - s.initialValueFreeCoefficient * vectorSecondComponentContributionBase s i)
      = vectorBoundaryValues s
        - s.initialValueFreeCoefficient • vectorSecondComponentContributionBase s := by
    funext i
    simp
  rw [hvec]

lemma eigenInverse_of_det_zero {m : Matrix (Fin 10) (Fin 10) ℝ} (h : m.det = 0) :
    eigenInverse m = 0 := by
  rw [eigenInverse, h]
  simp

lemma satisfyBC_of_det_zero (s : State) (hdet : (matrixBoundaryConditions s).det = 0) :
    (satisfyBoundaryConditions s).coefficientsRadialDistanceFunction
        = (fun i : Fin 7 => if (i : ℕ) = 2 then s.initialValueFreeCoefficient else 0)
    ∧ (satisfyBoundaryConditions s).coefficientsElevationAngleFunction
        = (fun _ : Fin 4 => 0) := by
  have hinv : computeInverseMatrixBoundaryConditions s = 0 := by
    rw [computeInverseMatrixBoundaryConditions]
    exact eigenInverse_of_det_zero hdet
  constructor
  · simp only [satisfyBoundaryConditions, hinv, Matrix.zero_mulVec]
    funext i
    fin_cases i <;> simp
  · simp only [satisfyBoundaryConditions, hinv, Matrix.zero_mulVec]
    funext i
    fin_cases i <;> simp

lemma infeasibleState_matrix_rows_eq :
    matrixBoundaryConditions infeasibleState 0 = matrixBoundaryConditions infeasibleState 1 := by
  funext c
  by_cases hc : (c : ℕ) < 6
  · simp [matrixBoundaryConditions, hc, infeasibleState]
  · simp [matrixBoundaryConditions, hc, infeasibleState]

lemma infeasibleState_det_zero : (matrixBoundaryConditions infeasibleState).det = 0 :=
  Matrix.det_zero_of_row_eq (by decide) infeasibleState_matrix_rows_eq

/-- C2 (code bug): evaluating the root-finder objective at a trial free
coefficient only installs the trial value and computes the time of flight; it
does not re-solve the boundary-condition system
(`TimeOfFlightFunction::evaluate`, `exposinsShaping.h` lines 243-249, never
invokes `satisfyBoundaryConditionsFunction_`, which is declared at line 282
but never initialized, while the caller at `exposinsShapingWorking.cpp` lines
628-634 binds `satisfyBoundaryConditions` and passes it to a constructor that
does not accept it).  Concretely: after evaluating the objective at trial
value 2 on a state with all-ones composite coefficients, the composite
radial coefficient at the free slot is still 1, whereas the re-solve required
by the claim would have installed 2 there. -/
theorem claim2_objective_skips_boundary_solve :
    (timeOfFlightFunctionEvaluate [] 2 infeasibleState).2
        = resetValueFreeCoefficient 2 infeasibleState
    ∧ ((timeOfFlightFunctionEvaluate [] 2
          infeasibleState).2).radialDistanceCompositeFunction.coefficients 2 = 1
    ∧ (satisfyBoundaryConditions (resetValueFreeCoefficient 2
          infeasibleState)).radialDistanceCompositeFunction.coefficients 2 = 2 := by
  refine ⟨rfl, rfl, ?_⟩
  simp [satisfyBoundaryConditions, resetValueFreeCoefficient,
    CompositeFunction.resetCompositeFunctionCoefficients]

/-- C3: for every state (hence every free-coefficient value),
`satisfyBoundaryConditions` computes the dependent coefficients as the
inverse boundary matrix applied to the boundary-values vector minus the free
coefficient times its contribution column, installs the free coefficient at
slot 2 of the radial coefficient vector (the six dependent radial
coefficients filling the slots around it and the last four solution entries
becoming the elevation coefficients), and resets both composite functions
with the resulting vectors. -/
theorem claim3_satisfy_boundary_conditions (s : State) :
    (satisfyBoundaryConditions s).coefficientsRadialDistanceFunction
        = ![boundaryConditionsSolution s 0, boundaryConditionsSolution s 1,
            s.initialValueFreeCoefficient, boundaryConditionsSolution s 2,
            boundaryConditionsSolution s 3, boundaryConditionsSolution s 4,
            boundaryConditionsSolution s 5]
    ∧ (satisfyBoundaryConditions s).coefficientsElevationAngleFunction
        = ![boundaryConditionsSolution s 6, boundaryConditionsSolution s 7,
            boundaryConditionsSolution s 8, boundaryConditionsSolution s 9]
    ∧ (satisfyBoundaryConditions s).radialDistanceCompositeFunction
        = s.radialDistanceCompositeFunction.resetCompositeFunctionCoefficients
            ![boundaryConditionsSolution s 0, boundaryConditionsSolution s 1,
              s.initialValueFreeCoefficient, boundaryConditionsSolution s 2,
              boundaryConditionsSolution s 3, boundaryConditionsSolution s 4,
              boundaryConditionsSolution s 5]
    ∧ (satisfyBoundaryConditions s).elevationAngleCompositeFunction
        = s.elevationAngleCompositeFunction.resetCompositeFunctionCoefficients
            ![boundaryConditionsSolution s 6, boundaryConditionsSolution s 7,
              boundaryConditionsSolution s 8, boundaryConditionsSolution s 9] := by
  have hrad : (satisfyBoundaryConditions s).coefficientsRadialDistanceFunction
      = ![boundaryConditionsSolution s 0, boundaryConditionsSolution s 1,
          s.initialValueFreeCoefficient, boundaryConditionsSolution s 2,
          boundaryConditionsSolution s 3, boundaryConditionsSolution s 4,
          boundaryConditionsSolution s 5] := by
    simp only [satisfyBoundaryConditions, satisfyBC_solution]
    funext i
    fin_cases i <;> rfl
  have helev : (satisfyBoundaryConditions s).coefficientsElevationAngleFunction
      = ![boundaryConditionsSolution s 6, boundaryConditionsSolution s 7,
          boundaryConditionsSolution s 8, boundaryConditionsSolution s 9] := by
    simp only [satisfyBoundaryConditions, satisfyBC_solution]
    funext i
    fin_cases i <;> rfl
  refine ⟨hrad, helev, ?_, ?_⟩
  · show CompositeFunction.mk _ _ = CompositeFunction.mk _ _
    rw [← hrad]
    rfl
  · show CompositeFunction.mk _ _ = CompositeFunction.mk _ _
    rw [← helev]
    rfl

/-- C5: the root-finder objective returns exactly the residual of required
minus computed time of flight, the computed value being evaluated on the
state in which the free coefficient has been set to the trial input; the
updated state (with the trial coefficient installed) is all that the
evaluation changes. -/
theorem claim5_objective_residual (s : State) (nodes : List (ℝ × ℝ)) (inputValue t : ℝ)
    (h : computeNormalizedTimeOfFlight (resetValueFreeCoefficient inputValue s) nodes
      = FloatRes.val t) :
    timeOfFlightFunctionEvaluate nodes inputValue s
      = (FloatRes.val (getNormalizedRequiredTimeOfFlight s - t),
         resetValueFreeCoefficient inputValue s) := by
  simp only [timeOfFlightFunctionEvaluate]
  rw [h]
  simp [getNormalizedRequiredTimeOfFlight, resetValueFreeCoefficient]

/-- C5 witness: on the empty node list the quadrature returns zero, and the
objective returns the required time of flight minus zero together with the
state carrying the trial coefficient. -/
theorem claim5_witness :
    computeNormalizedTimeOfFlight (resetValueFreeCoefficient 3 infeasibleState) []
        = FloatRes.val 0
    ∧ timeOfFlightFunctionEvaluate [] 3 infeasibleState
        = (FloatRes.val (getNormalizedRequiredTimeOfFlight infeasibleState - 0),
           resetValueFreeCoefficient 3 infeasibleState) :=
  ⟨rfl, claim5_objective_residual infeasibleState [] 3 0 rfl⟩

/-- C6, amended: the boundary solve performs no singularity check.  When the
boundary matrix is singular, Eigen's unconditional inverse is unusable (the
zero matrix in this idealized embedding) and `satisfyBoundaryConditions`
proceeds with it, installing the free coefficient at slot 2 and zeros
everywhere else, instead of failing with a configuration error. -/
theorem claim6_amended (s : State) (hdet : (matrixBoundaryConditions s).det = 0) :
    computeInverseMatrixBoundaryConditions s = 0
    ∧ (satisfyBoundaryConditions s).coefficientsRadialDistanceFunction
        = (fun i : Fin 7 => if (i : ℕ) = 2 then s.initialValueFreeCoefficient else 0)
    ∧ (satisfyBoundaryConditions s).coefficientsElevationAngleFunction
        = (fun _ : Fin 4 => 0) := by
  refine ⟨?_, (satisfyBC_of_det_zero s hdet).1, (satisfyBC_of_det_zero s hdet).2⟩
  rw [computeInverseMatrixBoundaryConditions]
  exact eigenInverse_of_det_zero hdet

/-- C6 witness: a concrete state with coincident boundary azimuth angles has
a singular boundary matrix (two equal rows), on which the amended theorem is
instantiated. -/
theorem claim6_witness :
    (matrixBoundaryConditions infeasibleState).det = 0
    ∧ (computeInverseMatrixBoundaryConditions infeasibleState = 0
      ∧ (satisfyBoundaryConditions infeasibleState).coefficientsRadialDistanceFunction
          = (fun i : Fin 7 =>
              if (i : ℕ) = 2 then infeasibleState.initialValueFreeCoefficient else 0)
      ∧ (satisfyBoundaryConditions infeasibleState).coefficientsElevationAngleFunction
          = (fun _ : Fin 4 => 0)) :=
  ⟨infeasibleState_det_zero, claim6_amended infeasibleState infeasibleState_det_zero⟩

/-- C6 counterexample: a concrete state with coincident boundary angles makes
the boundary matrix singular, yet the boundary solve does not fail: it runs
to completion and installs a coefficient vector computed from the unusable
inverse, refuting the claim that a singular matrix leads to a fatal
configuration error and is never proceeded with. -/
theorem claim6_counterexample :
    (matrixBoundaryConditions infeasibleState).det = 0
    ∧ (satisfyBoundaryConditions infeasibleState).coefficientsRadialDistanceFunction
        = ![0, 0, 1, 0, 0, 0, 0] := by
  refine ⟨infeasibleState_det_zero, ?_⟩
  rw [(satisfyBC_of_det_zero infeasibleState infeasibleState_det_zero).1]
  funext i
  fin_cases i <;> rfl

lemma correctAzimuth_nonneg {a : ℝ} (h : -Real.pi < a) : 0 ≤ correctAzimuth a := by
  have hpi := Real.pi_pos
  rw [correctAzimuth]
  split_ifs with hneg
  · linarith
  · linarith

lemma correctAzimuth_lt_two_pi {a : ℝ} (h : a ≤ Real.pi) : correctAzimuth a < 2 * Real.pi := by
  have hpi := Real.pi_pos
  rw [correctAzimuth]
  split_ifs with hneg
  · linarith
  · linarith

lemma correctAzimuth_inj {a b : ℝ} (ha1 : -Real.pi < a) (ha2 : a ≤ Real.pi)
    (hb1 : -Real.pi < b) (hb2 : b ≤ Real.pi) (hne : a ≠ b) :
    correctAzimuth a ≠ correctAzimuth b := by
  have hpi := Real.pi_pos
  rw [correctAzimuth, correctAzimuth]
  split_ifs with haneg hbneg hbneg
  · intro h
    exact hne (by linarith)
  · intro h
    linarith
  · intro h
    linarith
  · intro h
    exact hne (by linarith)

lemma finalAzimuthAngleOf_ge {a b : ℝ} {n : ℤ} (ha1 : -Real.pi < a) (ha2 : a ≤ Real.pi)
    (hb1 : -Real.pi < b) (hn : 0 ≤ n) :
    correctAzimuth a ≤ finalAzimuthAngleOf a b n := by
  have hpi := Real.pi_pos
  have hb0 : 0 ≤ correctAzimuth b := correctAzimuth_nonneg hb1
  have ha2pi : correctAzimuth a < 2 * Real.pi := correctAzimuth_lt_two_pi ha2
  have hnr : (0 : ℝ) ≤ (n : ℝ) := by exact_mod_cast hn
  have hterm : 0 ≤ 2 * Real.pi * (n : ℝ) := mul_nonneg (by linarith) hnr
  rw [finalAzimuthAngleOf]
  split_ifs with hd
  · nlinarith
  · nlinarith

lemma finalAzimuthAngleOf_gt {a b : ℝ} {n : ℤ} (ha1 : -Real.pi < a) (ha2 : a ≤ Real.pi)
    (hb1 : -Real.pi < b) (hb2 : b ≤ Real.pi) (hn : 0 ≤ n)
    (hstrict : a ≠ b ∨ 1 ≤ n) :
    correctAzimuth a < finalAzimuthAngleOf a b n := by
  have hpi := Real.pi_pos
  have hb0 : 0 ≤ correctAzimuth b := correctAzimuth_nonneg hb1
  have ha2pi : correctAzimuth a < 2 * Real.pi := correctAzimuth_lt_two_pi ha2
  have hnr : (0 : ℝ) ≤ (n : ℝ) := by exact_mod_cast hn
  have hterm : 0 ≤ 2 * Real.pi * (n : ℝ) := mul_nonneg (by linarith) hnr
  rw [finalAzimuthAngleOf]
  split_ifs with hd
  · nlinarith
  · rcases hstrict with hne | hone
    · have hccne : correctAzimuth a ≠ correctAzimuth b :=
        correctAzimuth_inj ha1 ha2 hb1 hb2 hne
      have hlt : correctAzimuth a < correctAzimuth b := by
        rcases lt_or_eq_of_le (by linarith : correctAzimuth a ≤ correctAzimuth b) with h | h
        · exact h
        · exact absurd h hccne
      nlinarith
    · have honer : (1 : ℝ) ≤ (n : ℝ) := by exact_mod_cast hone
      nlinarith

lemma finalAzimuthAngleOf_succ (a b : ℝ) (n : ℤ) :
    finalAzimuthAngleOf a b (n + 1) = finalAzimuthAngleOf a b n + 2 * Real.pi := by
  rw [finalAzimuthAngleOf, finalAzimuthAngleOf]
  split_ifs with hd
  · push_cast
    ring
  · push_cast
    ring

/-- C4, amended: after construction the final azimuth angle is greater than
or equal to the initial azimuth angle, with equality possible only when the
two boundary azimuths coincide and zero revolutions are requested (the
inequality is strict as soon as the azimuths differ or at least one
revolution is requested); requesting one additional revolution increases the
final azimuth angle by exactly two pi.  The boundary azimuths are taken in
the atan2 range of the external Cartesian-to-spherical conversion. -/
theorem claim4_amended
    (initialSphericalState finalSphericalState : Fin 6 → ℝ)
    (requiredTimeOfFlight : ℝ) (numberOfRevolutions : ℤ)
    (centralBodyGravitationalParameter initialValueFreeCoefficient : ℝ)
    (radialBasisComponents : Fin 7 → BasisComponent)
    (elevationBasisComponents : Fin 4 → BasisComponent)
    (lastFreeCoefficientTrial lastGammaTrial : ℝ)
    (h1l : -Real.pi < initialSphericalState 1) (h1u : initialSphericalState 1 ≤ Real.pi)
    (h2l : -Real.pi < finalSphericalState 1) (h2u : finalSphericalState 1 ≤ Real.pi)
    (hn : 0 ≤ numberOfRevolutions) :
    getInitialAzimuthAngle (constructExposinsShaping initialSphericalState finalSphericalState
        requiredTimeOfFlight numberOfRevolutions centralBodyGravitationalParameter
        initialValueFreeCoefficient radialBasisComponents elevationBasisComponents
        lastFreeCoefficientTrial lastGammaTrial)
      ≤ getFinalAzimuthAngle (constructExposinsShaping initialSphericalState finalSphericalState
          requiredTimeOfFlight numberOfRevolutions centralBodyGravitationalParameter
          initialValueFreeCoefficient radialBasisComponents elevationBasisComponents
          lastFreeCoefficientTrial lastGammaTrial)
    ∧ (initialSphericalState 1 ≠ finalSphericalState 1 ∨ 1 ≤ numberOfRevolutions →
        getInitialAzimuthAngle (constructExposinsShaping initialSphericalState finalSphericalState
            requiredTimeOfFlight numberOfRevolutions centralBodyGravitationalParameter
            initialValueFreeCoefficient radialBasisComponents elevationBasisComponents
            lastFreeCoefficientTrial lastGammaTrial)
          < getFinalAzimuthAngle (constructExposinsShaping initialSphericalState finalSphericalState
              requiredTimeOfFlight numberOfRevolutions centralBodyGravitationalParameter
              initialValueFreeCoefficient radialBasisComponents elevationBasisComponents
              lastFreeCoefficientTrial lastGammaTrial))
    ∧ getFinalAzimuthAngle (constructExposinsShaping initialSphericalState finalSphericalState
          requiredTimeOfFlight (numberOfRevolutions + 1) centralBodyGravitationalParameter
          initialValueFreeCoefficient radialBasisComponents elevationBasisComponents
          lastFreeCoefficientTrial lastGammaTrial)
        = getFinalAzimuthAngle (constructExposinsShaping initialSphericalState finalSphericalState
            requiredTimeOfFlight numberOfRevolutions centralBodyGravitationalParameter
            initialValueFreeCoefficient radialBasisComponents elevationBasisComponents
            lastFreeCoefficientTrial lastGammaTrial) + 2 * Real.pi := by
  refine ⟨?_, ?_, ?_⟩
  · exact finalAzimuthAngleOf_ge h1l h1u h2l hn
  · intro hstrict
    exact finalAzimuthAngleOf_gt h1l h1u h2l h2u hn hstrict
  · exact finalAzimuthAngleOf_succ (initialSphericalState 1) (finalSphericalState 1)
      numberOfRevolutions

/-- C4 witness: concrete boundary azimuths 0 and 1 with two requested
revolutions, discharging the azimuth-range and revolution-count
hypotheses. -/
theorem claim4_witness :
    (-Real.pi < (0 : ℝ) ∧ (0 : ℝ) ≤ Real.pi ∧ -Real.pi < (1 : ℝ) ∧ (1 : ℝ) ≤ Real.pi
      ∧ (0 : ℤ) ≤ 2)
    ∧ (getInitialAzimuthAngle (constructExposinsShaping (fun _ => 0) (fun _ => 1) 1 2 1 1
          (fun _ => constComponent 0 0 0 0) (fun _ => constComponent 0 0 0 0) 1 1)
        ≤ getFinalAzimuthAngle (constructExposinsShaping (fun _ => 0) (fun _ => 1) 1 2 1 1
            (fun _ => constComponent 0 0 0 0) (fun _ => constComponent 0 0 0 0) 1 1)
      ∧ (((fun _ : Fin 6 => (0 : ℝ)) 1 ≠ (fun _ : Fin 6 => (1 : ℝ)) 1 ∨ (1 : ℤ) ≤ 2) →
          getInitialAzimuthAngle (constructExposinsShaping (fun _ => 0) (fun _ => 1) 1 2 1 1
              (fun _ => constComponent 0 0 0 0) (fun _ => constComponent 0 0 0 0) 1 1)
            < getFinalAzimuthAngle (constructExposinsShaping (fun _ => 0) (fun _ => 1) 1 2 1 1
                (fun _ => constComponent 0 0 0 0) (fun _ => constComponent 0 0 0 0) 1 1))
      ∧ getFinalAzimuthAngle (constructExposinsShaping (fun _ => 0) (fun _ => 1) 1 (2 + 1) 1 1
            (fun _ => constComponent 0 0 0 0) (fun _ => constComponent 0 0 0 0) 1 1)
          = getFinalAzimuthAngle (constructExposinsShaping (fun _ => 0) (fun _ => 1) 1 2 1 1
              (fun _ => constComponent 0 0 0 0) (fun _ => constComponent 0 0 0 0) 1 1)
            + 2 * Real.pi) := by
  have hpi := Real.pi_pos
  have hpi3 := Real.pi_gt_three
  refine ⟨⟨by linarith, by linarith, by linarith, by linarith, by norm_num⟩, ?_⟩
  exact claim4_amended (fun _ => 0) (fun _ => 1) 1 2 1 1
    (fun _ => constComponent 0 0 0 0) (fun _ => constComponent 0 0 0 0) 1 1
    (by show -Real.pi < (0 : ℝ); linarith) (by show (0 : ℝ) ≤ Real.pi; linarith)
    (by show -Real.pi < (1 : ℝ); linarith) (by show (1 : ℝ) ≤ Real.pi; linarith)
    (by norm_num)

/-- C4 counterexample: with both boundary azimuths equal (both boundary
states on the same azimuth ray) and zero requested revolutions, the final
azimuth angle after construction equals the initial azimuth angle, refuting
the claim that it is strictly greater for every input. -/
theorem claim4_counterexample :
    ¬ (getInitialAzimuthAngle (constructExposinsShaping (fun _ => 0) (fun _ => 0) 1 0 1 1
          (fun _ => constComponent 0 0 0 0) (fun _ => constComponent 0 0 0 0) 1 1)
        < getFinalAzimuthAngle (constructExposinsShaping (fun _ => 0) (fun _ => 0) 1 0 1 1
            (fun _ => constComponent 0 0 0 0) (fun _ => constComponent 0 0 0 0) 1 1)) := by
  have hcorr : correctAzimuth 0 = 0 := by
    rw [correctAzimuth]
    norm_num
  have h1 : getInitialAzimuthAngle (constructExposinsShaping (fun _ => 0) (fun _ => 0) 1 0 1 1
      (fun _ => constComponent 0 0 0 0) (fun _ => constComponent 0 0 0 0) 1 1) = 0 := by
    show correctAzimuth 0 = 0
    exact hcorr
  have h2 : getFinalAzimuthAngle (constructExposinsShaping (fun _ => 0) (fun _ => 0) 1 0 1 1
      (fun _ => constComponent 0 0 0 0) (fun _ => constComponent 0 0 0 0) 1 1) = 0 := by
    show finalAzimuthAngleOf 0 0 0 = 0
    rw [finalAzimuthAngleOf, hcorr]
    norm_num
  rw [h1, h2]
  exact lt_irrefl 0

/-- C7 (code bug): the constructor resizes the radial coefficient member to
length 7 and fills seven entries, but the member is declared as the
fixed-size `Eigen::Vector4d` (`exposinsShaping.h` line 379), whose resize to
a different size fails; no length-7 radial coefficient vector can be produced
from the declared member, so the claimed length invariant cannot hold on the
declared representation. -/
theorem claim7_declared_resize_fails (declaredMember : Fin 4 → ℝ) :
    constructorRadialCoefficientsInit declaredMember = none := by
  simp [constructorRadialCoefficientsInit, eigenFixedVecResize]

/-- C8: every public query rescales the internally normalized quantities
exactly at the public boundary: the time of flight by one Julian year, the
state vector positionwise by the astronomical unit and velocitywise by
astronomical unit per Julian year, and the thrust acceleration by
astronomical unit per Julian year squared. -/
theorem claim8_public_boundary_rescaling (s : State) (nodes : List (ℝ × ℝ)) (θ : ℝ) :
    computeTimeOfFlight s nodes
        = FloatRes.scale julianYear (computeNormalizedTimeOfFlight s nodes)
    ∧ computeCurrentStateVector s θ = (computeNormalizedStateVector s θ).map
        (fun (v : Fin 6 → ℝ) (i : Fin 6) => if (i : ℕ) < 3 then v i * astronomicalUnit
          else v i * astronomicalUnit / julianYear)
    ∧ computeCurrentThrustAccelerationVector s θ
        = (computeNormalizedThrustAccelerationVector s θ).map
            (fun a i => a i * astronomicalUnit / julianYear ^ 2) := by
  refine ⟨?_, ?_, rfl⟩
  · rw [computeTimeOfFlight]
    cases computeNormalizedTimeOfFlight s nodes <;> rfl
  · cases h : computeNormalizedStateVector s θ <;> simp [computeCurrentStateVector, h]

/-- C9: the query methods `computeCurrentStateVector` and `computeDeltaV` do
not mutate any internal state of the shaping problem, so calling either twice
in succession with the same argument yields identical results. -/
theorem claim9_query_idempotence (s : State) (θ : ℝ) (nodes : List (ℝ × ℝ)) :
    (computeCurrentStateVectorCall s θ).2 = s
    ∧ (computeCurrentStateVectorCall ((computeCurrentStateVectorCall s θ).2) θ).1
        = (computeCurrentStateVectorCall s θ).1
    ∧ (computeDeltaVCall s nodes).2 = s
    ∧ (computeDeltaVCall ((computeDeltaVCall s nodes).2) nodes).1
        = (computeDeltaVCall s nodes).1 :=
  ⟨rfl, rfl, rfl, rfl⟩

/-- C10: for every constructor input, `getTravelledAzimuthAngle` after
construction returns the hard-coded constant pi over two plus four pi
(`exposinsShapingWorking.cpp` line 148), independent of the boundary states
and of the difference between the final and initial azimuth angles. -/
theorem claim10_travelled_azimuth_constant
    (initialSphericalState finalSphericalState : Fin 6 → ℝ)
    (requiredTimeOfFlight : ℝ) (numberOfRevolutions : ℤ)
    (centralBodyGravitationalParameter initialValueFreeCoefficient : ℝ)
    (radialBasisComponents : Fin 7 → BasisComponent)
    (elevationBasisComponents : Fin 4 → BasisComponent)
    (lastFreeCoefficientTrial lastGammaTrial : ℝ) :
    getTravelledAzimuthAngle (constructExposinsShaping initialSphericalState finalSphericalState
        requiredTimeOfFlight numberOfRevolutions centralBodyGravitationalParameter
        initialValueFreeCoefficient radialBasisComponents elevationBasisComponents
        lastFreeCoefficientTrial lastGammaTrial)
      = Real.pi / 2 + 4 * Real.pi := by
  show Real.pi / 2 + 2 * Real.pi * 2 = Real.pi / 2 + 4 * Real.pi
  ring

end ExposinsShaping
